import Mathlib

/-!
Verification of the sat-data-viewer backend core against its specification.

The development shallowly embeds the Python sources:
  app/middleware.py  (RequestTracker: rate limiting, download quota, stats)
  app/conversion.py  (normalize_array, rescale_array, apply_colormap,
                      the single-band branch of geotiff_to_png)
  app/collections.py (collection catalog, disabled flags, asset validation)
  app/download.py    (the bbox clipping window step of download_tile,
                      and the file lifecycle of download_tile)
  app/routes.py      (the cleanup behaviour of the download route,
                      and the disabled-collection gates of both endpoints)

Modelling conventions:
  - datetime instants and float quantities are modelled as rationals
    (exact arithmetic stands in for IEEE floats; all the properties checked
    here are about comparisons and exact branch conditions, where the two
    agree on the values involved);
  - a numpy float cell is modelled as an element of (Option Rat), where
    none stands for NaN and (some x) for the finite value x;
  - the filesystem as seen by one request is a list of the paths that
    currently exist;
  - matplotlib's colormap registry is external to the repository, so it is
    a parameter (String to Option of a color transfer function); the final
    fallback plt.get_cmap of the name viridis always succeeds in matplotlib,
    which is modelled by passing the viridis transfer function itself.
-/

namespace SatDataViewer

/-! ## Governor: app/middleware.py, class RequestTracker

Timestamps are rationals (seconds).  timedelta(minutes=w) is 60*w seconds,
timedelta(hours=1) is 3600 seconds. -/

/-- middleware.py lines 22-35, RequestTracker.check_rate_limit.
`requests` is self.requests[ip]; the call both returns the boolean and
reassigns the (pruned, possibly extended) log, so the model returns both. -/
def check_rate_limit (requests : List ℚ) (now : ℚ)
    (max_requests : ℕ) (window_minutes : ℚ) : Bool × List ℚ :=
  let cutoff := now - 60 * window_minutes
  let cleaned := requests.filter (fun ts => decide (cutoff < ts))
  if max_requests ≤ cleaned.length then
    (false, cleaned)
  else
    (true, cleaned ++ [now])

/-- middleware.py lines 37-48, RequestTracker.check_download_quota.
`downloads` is self.downloads[ip], a list of (timestamp, size_mb) pairs;
the check prunes the stored log and compares the megabyte sum. -/
def check_download_quota (downloads : List (ℚ × ℚ)) (now : ℚ)
    (max_mb_per_hour : ℚ) : Bool × List (ℚ × ℚ) :=
  let cutoff := now - 3600
  let cleaned := downloads.filter (fun p => decide (cutoff < p.1))
  let total_mb := (cleaned.map Prod.snd).sum
  (decide (total_mb < max_mb_per_hour), cleaned)

/-- middleware.py lines 50-53, RequestTracker.record_download:
appends (now, size_bytes / (1024*1024)). -/
def record_download (downloads : List (ℚ × ℚ)) (now : ℚ)
    (size_bytes : ℚ) : List (ℚ × ℚ) :=
  downloads ++ [(now, size_bytes / (1024 * 1024))]

/-- Python round-half-to-even on an exact rational. -/
def bankersRound (q : ℚ) : ℤ :=
  let fl := ⌊q⌋
  let r := q - fl
  if r < 1 / 2 then fl
  else if 1 / 2 < r then fl + 1
  else if fl % 2 = 0 then fl else fl + 1

/-- round(x, 2) from middleware.py line 65, in exact arithmetic. -/
def round2 (q : ℚ) : ℚ := (bankersRound (q * 100) : ℚ) / 100

/-- The tracker state: middleware.py lines 18-20.  The two defaultdicts are
modelled extensionally as total maps with default []; a defaultdict lookup
of a missing key inserts an empty list, which does not change this
key-to-value view. -/
structure RequestTracker where
  requests : String → List ℚ
  downloads : String → List (ℚ × ℚ)

/-- middleware.py lines 55-67, RequestTracker.get_stats.  The method body
only reads self (it builds local lists and a dict), so its embedding
returns the stats together with the unchanged tracker state.  The stats
triple is (downloads_last_hour, mb_downloaded_last_hour,
requests_last_minute). -/
def RequestTracker.get_stats (t : RequestTracker) (ip : String) (now : ℚ) :
    (ℕ × ℚ × ℕ) × RequestTracker :=
  let recent_downloads := (t.downloads ip).filter (fun p => decide (now - 3600 < p.1))
  let total_mb := (recent_downloads.map Prod.snd).sum
  ((recent_downloads.length,
    round2 total_mb,
    ((t.requests ip).filter (fun ts => decide (now - 60 < ts))).length), t)

/-- Driver used to state the governor scenarios: issue the requests at the
given instants in order, starting from the given log, with the default cap
of 10 per 1-minute window; returns the list of allow/deny outcomes and the
final log. -/
def run_requests : List ℚ → List ℚ → List Bool × List ℚ
  | [], log => ([], log)
  | t :: ts, log =>
    let r := check_rate_limit log t 10 1
    let rest := run_requests ts r.2
    (r.1 :: rest.1, rest.2)

/-! ## Visualization engine: app/conversion.py

Cells are (Option Rat): none is NaN.  astype(np.uint8) truncates toward
zero and wraps modulo 256; every value it is applied to below lies in
[0, 255], where that is floor.  Casting NaN with astype(np.uint8) is
unspecified in numpy; the model uses 0 for it, and every such cell is
overwritten with 0 by the nodata-mask assignment before it can be
observed, in all paths modelled here. -/

/-- One cell of np.isnan(arr) | (arr == nodata_value)
(conversion.py lines 77 and 117). -/
def nodataPix (nodata_value : ℚ) : Option ℚ → Bool
  | none => true
  | some x => decide (x = nodata_value)

/-- arr[valid_mask]: the finite cells different from the nodata value, in
array order (conversion.py lines 117-118, 124). -/
def validValues (nodata_value : ℚ) (arr : List (Option ℚ)) : List ℚ :=
  arr.filterMap (fun p =>
    match p with
    | none => none
    | some x => if x = nodata_value then none else some x)

/-- Insertion into a sorted list, for the ascending sort that
np.percentile performs internally. -/
def insertRat (x : ℚ) : List ℚ → List ℚ
  | [] => [x]
  | y :: ys => if x ≤ y then x :: y :: ys else y :: insertRat x ys

/-- Ascending insertion sort. -/
def sortRat : List ℚ → List ℚ
  | [] => []
  | x :: xs => insertRat x (sortRat xs)

/-- np.percentile with the default linear interpolation: on sorted data s
of length n, the q-th percentile sits at fractional position
q * (n - 1) / 100 and interpolates linearly between the two neighbouring
order statistics.  (Callers in the source only reach this with a nonempty
sample list.) -/
def percentile (xs : List ℚ) (q : ℚ) : ℚ :=
  let s := sortRat xs
  let n := s.length
  let pos := q * ((n : ℚ) - 1) / 100
  let i := (⌊pos⌋).toNat
  let frac := pos - (i : ℚ)
  let a := s.getD i 0
  let b := s.getD (i + 1) a
  a + frac * (b - a)

/-- np.clip(x, low, high) = min(max(x, low), high). -/
def clipQ (low high x : ℚ) : ℚ := min (max x low) high

/-- astype(np.uint8) on a value produced by the scaling expressions:
truncation toward zero, modulo 256 (all reachable inputs are in
[0, 255], where this is just the floor). -/
def truncToU8 (x : ℚ) : ℕ := (⌊x⌋).toNat % 256

/-- One cell of ((np.clip(arr, low, high) - low) / (high - low) * 255)
.astype(np.uint8) (conversion.py lines 90-96 and 131-132).  The NaN cell
value 0 is a placeholder that is always overwritten by the mask
assignment. -/
def scaleU8 (low high : ℚ) : Option ℚ → ℕ
  | none => 0
  | some x => truncToU8 ((clipQ low high x - low) / (high - low) * 255)

/-- out[mask] = 0 (conversion.py lines 99 and 135). -/
def maskZero (mask : List Bool) (vals : List ℕ) : List ℕ :=
  List.zipWith (fun m v => if m then 0 else v) mask vals

/-- rgb[mask] = 0 on three-channel data (conversion.py lines 34 and 59). -/
def maskZeroRGB (mask : List Bool) (vals : List (ℕ × ℕ × ℕ)) : List (ℕ × ℕ × ℕ) :=
  List.zipWith (fun m v => if m then ((0 : ℕ), (0 : ℕ), (0 : ℕ)) else v) mask vals

/-- conversion.py lines 104-137, normalize_array: percentile auto-scaling.
percentile_clip is passed as the two bounds p_lo, p_hi (the source default
is (2, 98) and both call sites use that default). -/
def normalize_array (arr : List (Option ℚ)) (p_lo p_hi : ℚ)
    (nodata_value : ℚ) : List ℕ × List Bool :=
  let nodata_mask := arr.map (nodataPix nodata_value)
  let valid := validValues nodata_value arr
  if valid.isEmpty then
    (arr.map (fun _ => 0), nodata_mask)
  else
    let low := percentile valid p_lo
    let high := percentile valid p_hi
    if high = low then
      (arr.map (fun _ => 0), nodata_mask)
    else
      (maskZero nodata_mask (arr.map (scaleU8 low high)), nodata_mask)

/-- str.split(sep) over the character list, accumulator-based. -/
def splitOnCharAux (sep : Char) : List Char → List Char → List (List Char)
  | [], acc => [acc.reverse]
  | c :: rest, acc =>
    if c = sep then acc.reverse :: splitOnCharAux sep rest []
    else splitOnCharAux sep rest (c :: acc)

/-- Numeric value of an ASCII digit. -/
def digitVal (c : Char) : Option ℕ :=
  if ('0') ≤ c ∧ c ≤ ('9') then some (c.toNat - ('0').toNat) else none

/-- Reads a (possibly empty) all-digit string as a natural number;
fails on any non-digit. -/
def digitsToNatAux : List Char → ℕ → Option ℕ
  | [], acc => some acc
  | c :: rest, acc =>
    match digitVal c with
    | some d => digitsToNatAux rest (acc * 10 + d)
    | none => none

/-- Unsigned decimal literal: digits with an optional fractional part,
at least one digit overall.  Python float() additionally accepts
exponents, inf and nan; those forms never arise in the claims checked
here and are treated as unparsable. -/
def parseDecFrac (cs : List Char) : Option ℚ :=
  match splitOnCharAux ('.') cs [] with
  | [ip] =>
    if ip.isEmpty then none
    else (digitsToNatAux ip 0).map (fun n => (n : ℚ))
  | [ip, fp] =>
    if ip.isEmpty ∧ fp.isEmpty then none
    else
      match digitsToNatAux ip 0, digitsToNatAux fp 0 with
      | some i, some f => some ((i : ℚ) + (f : ℚ) / (10 : ℚ) ^ fp.length)
      | _, _ => none
  | _ => none

/-- float(s): strip surrounding spaces, optional sign, decimal literal. -/
def parseFloatChars (cs : List Char) : Option ℚ :=
  let t := ((cs.dropWhile (fun c => c = (' '))).reverse.dropWhile
      (fun c => c = (' '))).reverse
  match t with
  | '-' :: rest => (parseDecFrac rest).map (fun v => -v)
  | '+' :: rest => parseDecFrac rest
  | _ => parseDecFrac t

/-- min_val, max_val = map(float, rescale_range.split(','))
(conversion.py line 84): succeeds exactly when the split yields two
parts and both parse as numbers; any failure raises and is caught. -/
def parseRange (s : String) : Option (ℚ × ℚ) :=
  match (splitOnCharAux (',') s.data []).map parseFloatChars with
  | [some lo, some hi] => some (lo, hi)
  | _ => none

/-- conversion.py lines 64-101, rescale_array.  A missing range or an
unparsable range string falls back to normalize_array (lines 79-87);
an equal-bounds range returns the all-zero array (lines 93-94). -/
def rescale_array (arr : List (Option ℚ)) (rescale_range : Option String)
    (nodata_value : ℚ) : List ℕ × List Bool :=
  let nodata_mask := arr.map (nodataPix nodata_value)
  match rescale_range with
  | none => normalize_array arr 2 98 nodata_value
  | some s =>
    match parseRange s with
    | none => normalize_array arr 2 98 nodata_value
    | some (min_val, max_val) =>
      if max_val = min_val then
        (arr.map (fun _ => 0), nodata_mask)
      else
        (maskZero nodata_mask (arr.map (scaleU8 min_val max_val)), nodata_mask)

/-- Is pat a leading segment of the second list? -/
def leadMatch : List Char → List Char → Bool
  | [], _ => true
  | _ :: _, [] => false
  | p :: ps, c :: cs => (p = c) && leadMatch ps cs

/-- Fuel-indexed left-to-right replacement of all non-overlapping
occurrences; with fuel at least the input length it is Python
str.replace. -/
def replaceAllAux (pat rep : List Char) : ℕ → List Char → List Char
  | 0, l => l
  | _ + 1, [] => []
  | fuel + 1, c :: rest =>
    if (!pat.isEmpty) && leadMatch pat (c :: rest) then
      rep ++ replaceAllAux pat rep fuel ((c :: rest).drop pat.length)
    else
      c :: replaceAllAux pat rep fuel rest

/-- Python str.replace(pat, rep) (for nonempty pat, the only use here). -/
def replaceAll (pat rep l : List Char) : List Char :=
  replaceAllAux pat rep l.length l

/-- conversion.py line 41: colormap.replace of rdylgn to RdYlGn, then of
ylgnbu to YlGnBu, then of ylorbr to YlOrBr. -/
def fixupCmapName (s : String) : String :=
  String.mk (replaceAll ("ylorbr".data) ("YlOrBr".data)
    (replaceAll ("ylgnbu".data) ("YlGnBu".data)
      (replaceAll ("rdylgn".data) ("RdYlGn".data) s.data)))

/-- conversion.py lines 37-46: plt.get_cmap(colormap), on ValueError retry
with the case-corrected name, on ValueError again fall back to
plt.get_cmap of the name viridis.  The registry get_cmap is matplotlib's
(external); the always-successful viridis lookup is the parameter
viridis. -/
def resolveCmap {α : Type} (get_cmap : String → Option α) (viridis : α)
    (colormap : String) : α :=
  match get_cmap colormap with
  | some c => c
  | none =>
    match get_cmap (fixupCmapName colormap) with
    | some c => c
    | none => viridis

/-- conversion.py lines 18-61, apply_colormap, with the nodata mask always
supplied (as at the single call site, line 228).  A color transfer
function maps a [0,1] value to RGB components in [0,1] (the alpha channel
is dropped by the source before use). -/
def apply_colormap (data : List ℕ) (colormap : Option String)
    (get_cmap : String → Option (ℚ → ℚ × ℚ × ℚ)) (viridis : ℚ → ℚ × ℚ × ℚ)
    (nodata_mask : List Bool) : List (ℕ × ℕ × ℕ) :=
  match colormap with
  | none =>
    maskZeroRGB nodata_mask (data.map (fun d => (d, d, d)))
  | some name =>
    let cmap := resolveCmap get_cmap viridis name
    let colored := data.map (fun d => cmap ((d : ℚ) / 255))
    let rgb := colored.map (fun c =>
      (truncToU8 (c.1 * 255), truncToU8 (c.2.1 * 255), truncToU8 (c.2.2 * 255)))
    maskZeroRGB nodata_mask rgb

/-- conversion.py lines 219-232: the single-band branch of geotiff_to_png.
src_nodata is src.nodata (line 189; defaulted to 0 when the source
declares none).  Yields the RGB pixels when a colormap is requested, and
the mode L grayscale pixels otherwise.  (An empty rescale string is falsy
in Python and takes the no-rescale branch; it also fails to parse, so
both readings give normalize_array.) -/
def geotiff_to_png_single (data : List (Option ℚ)) (src_nodata : Option ℚ)
    (rescale colormap : Option String)
    (get_cmap : String → Option (ℚ → ℚ × ℚ × ℚ)) (viridis : ℚ → ℚ × ℚ × ℚ) :
    List (ℕ × ℕ × ℕ) ⊕ List ℕ :=
  let nodata_value := src_nodata.getD 0
  let r :=
    match rescale with
    | some s => rescale_array data (some s) nodata_value
    | none => normalize_array data 2 98 nodata_value
  match colormap with
  | some name => Sum.inl (apply_colormap r.1 (some name) get_cmap viridis r.2)
  | none => Sum.inr r.1

/-- The output C5 states, written from the claim: the 2nd and 98th
percentile over exactly the valid samples; every cell clipped to that
range and mapped linearly onto 0-255 integers; uniformly zero when the
two percentiles coincide; 0 at every nodata cell. -/
def claimPercentileScaling (arr : List (Option ℚ)) (nodata_value : ℚ) : List ℕ :=
  let valid := validValues nodata_value arr
  let low := percentile valid 2
  let high := percentile valid 98
  arr.map (fun p =>
    match p with
    | none => 0
    | some x =>
      if x = nodata_value then 0
      else if high = low then 0
      else truncToU8 ((clipQ low high x - low) / (high - low) * 255))

/-! ## Spatial window step: app/download.py lines 143-163

The source raster's affine transform for the rasters served here is
north-up (no rotation): x = c + a * col, y = f + e * row with a > 0,
e < 0.  rasterio's from_bounds inverts it at (left, top) and
(right, bottom).  transform_bounds (reprojection between coordinate
systems) is external to the repository and is a parameter; when the
raster's CRS is EPSG:4326 it is the identity. -/

structure AffineNorthUp where
  a : ℚ
  c : ℚ
  e : ℚ
  f : ℚ

structure BBox where
  left : ℚ
  bottom : ℚ
  right : ℚ
  top : ℚ

structure PixelWindow where
  col_off : ℚ
  row_off : ℚ
  width : ℚ
  height : ℚ

/-- rasterio.windows.from_bounds on a north-up transform. -/
def from_bounds (left bottom right top : ℚ) (t : AffineNorthUp) : PixelWindow :=
  { col_off := (left - t.c) / t.a
    row_off := (top - t.f) / t.e
    width := (right - left) / t.a
    height := (bottom - top) / t.e }

/-- The geographic extent of a raster of the given pixel size under a
north-up transform (left, bottom, right, top). -/
def raster_bounds (t : AffineNorthUp) (width height : ℚ) : BBox :=
  { left := t.c
    bottom := t.f + t.e * height
    right := t.c + t.a * width
    top := t.f }

/-- The bbox lies entirely outside the extent (disjoint rectangles). -/
def bbox_outside (b ext : BBox) : Prop :=
  b.right < ext.left ∨ ext.right < b.left ∨ b.top < ext.bottom ∨ ext.top < b.bottom

instance (b ext : BBox) : Decidable (bbox_outside b ext) := by
  unfold bbox_outside; infer_instance

/-- download.py lines 143-163: transform the bbox to the source CRS, build
the window with from_bounds, and hand it to src.read.  The Except target
records whether the step rejects before the read: the code contains no
emptiness or size check on the window, so the step always succeeds with
the computed window, which is exactly what src.read is called with. -/
def clip_window_step (transform_bounds : BBox → BBox) (bbox : BBox)
    (t : AffineNorthUp) : Except String PixelWindow :=
  let sb := transform_bounds bbox
  Except.ok (from_bounds sb.left sb.bottom sb.right sb.top t)

/-! ## Collection catalog: app/collections.py -/

structure CollectionInfo where
  name : String
  disabled : Bool := false
  disabled_reason : Option String := none
  assets : List (String × String)

/-- collections.py lines 8-74, COLLECTION_ASSETS. -/
def COLLECTION_ASSETS : List (String × CollectionInfo) :=
  [(("sentinel-2-l2a"),
    { name := ("Sentinel-2 Level-2A")
      assets := [(("visual"), ("True Color (RGB)")), (("B02"), ("Blue (490nm)")),
        (("B03"), ("Green (560nm)")), (("B04"), ("Red (665nm)")),
        (("B05"), ("Red Edge (705nm)")), (("B08"), ("NIR (842nm)")),
        (("B11"), ("SWIR (1610nm)")), (("SCL"), ("Scene Classification"))] }),
   (("landsat-c2-l2"),
    { name := ("Landsat Collection 2 Level-2")
      assets := [(("red"), ("Red")), (("green"), ("Green")), (("blue"), ("Blue")),
        (("nir08"), ("NIR")), (("swir16"), ("SWIR 1.6um")),
        (("lwir11"), ("Thermal (LWIR 11um)")), (("qa_pixel"), ("Quality Assessment"))] }),
   (("sentinel-1-grd"),
    { name := ("Sentinel-1 GRD")
      disabled := true
      disabled_reason := some ("SAR tiles are too large (1.2 GB per band)")
      assets := [(("vv"), ("VV Polarization")), (("vh"), ("VH Polarization"))] }),
   (("sentinel-1-rtc"),
    { name := ("Sentinel-1 RTC")
      disabled := true
      disabled_reason := some ("SAR tiles are too large (1.2 GB per band)")
      assets := [(("vv"), ("VV Polarization")), (("vh"), ("VH Polarization"))] }),
   (("modis-09A1-061"),
    { name := ("MODIS Surface Reflectance")
      assets := [(("sur_refl_b01"), ("Red (620-670nm)")),
        (("sur_refl_b02"), ("NIR (841-876nm)")),
        (("sur_refl_b03"), ("Blue (459-479nm)")),
        (("sur_refl_b04"), ("Green (545-565nm)"))] }),
   (("modis-13Q1-061"),
    { name := ("MODIS Vegetation Indices")
      assets := [(("250m_16_days_NDVI"), ("NDVI")), (("250m_16_days_EVI"), ("EVI"))] }),
   (("cop-dem-glo-30"),
    { name := ("Copernicus DEM 30m")
      assets := [(("data"), ("Elevation"))] })]

/-- collections.py lines 77-79, get_collection_info. -/
def get_collection_info (collection_id : String) : Option CollectionInfo :=
  (COLLECTION_ASSETS.find? (fun p => p.1 == collection_id)).map Prod.snd

/-- collections.py lines 82-91, is_collection_disabled. -/
def is_collection_disabled (collection_id : String) : Bool × Option String :=
  match get_collection_info collection_id with
  | some c =>
    if c.disabled then (true, some (c.disabled_reason.getD ("Downloads disabled")))
    else (false, none)
  | none => (false, none)

/-- collections.py lines 94-99, get_available_assets. -/
def get_available_assets (collection_id : String) : List String :=
  match get_collection_info collection_id with
  | some c => c.assets.map Prod.fst
  | none => []

/-- collections.py lines 102-104, is_valid_asset: the validation
download_tile performs at its entry (download.py line 104). -/
def is_valid_asset (collection_id asset_key : String) : Bool :=
  (get_available_assets collection_id).contains asset_key

/-- What a fetch endpoint does with a request before the tile fetch
pipeline runs: reject with an HTTP error, or call download_tile. -/
inductive EndpointAction where
  | reject : String → EndpointAction
  | callPipeline : EndpointAction
deriving DecidableEq

/-- routes.py lines 133-137 (the download endpoint): reject with the
disabled reason before calling download_tile. -/
def download_disabled_gate (collection : String) : EndpointAction :=
  let d := is_collection_disabled collection
  if d.1 then EndpointAction.reject (d.2.getD ("Downloads disabled"))
  else EndpointAction.callPipeline

/-- routes.py lines 252-304 (the download-info endpoint): the handler
calls download_tile directly; no disabled-collection check appears
anywhere in its body. -/
def download_info_disabled_gate (_collection : String) : EndpointAction :=
  EndpointAction.callPipeline

/-! ## File lifecycle of the fetch-or-visualize pipeline:
app/download.py lines 137-229 and app/routes.py lines 139-249

The filesystem is the list of existing paths.  Each stage is modelled by
where in its body a failure strikes, which determines both the raised
error and the files left on disk when it propagates. -/

/-- download.py lines 232-238, cleanup_file: remove the path if present. -/
def cleanup_file (file_path : String) (fs : List String) : List String :=
  fs.erase file_path

/-- The error kinds the route handler distinguishes
(routes.py lines 223-249). -/
inductive PipeErr where
  | downloadErr
  | conversionErr
deriving DecidableEq

/-- Failure points of download_tile (download.py lines 100-229):
  - failBeforeWrite: validation, STAC lookup, signing or raster open
    raises before the output file exists (every exception leaves as
    DownloadError via the handlers at lines 224-229);
  - failDuringWrite: the write of the output GeoTIFF (lines 181-182 or
    200-201) raises after the file was created; the surrounding handlers
    re-raise as DownloadError without removing it;
  - tooLarge: the file is written, the size check at lines 213-219
    removes it and raises DownloadError;
  - ok: the file is written and its path is returned. -/
inductive FetchOutcome where
  | failBeforeWrite
  | failDuringWrite
  | tooLarge
  | ok
deriving DecidableEq

/-- Failure points of geotiff_to_png (conversion.py lines 140-246):
  - failBeforeSave: opening or processing the input raises before the PNG
    exists (wrapped as ConversionError at line 246);
  - failDuringSave: img.save (line 238) raises after creating the output
    file, which remains (ConversionError, no cleanup in the function);
  - ok: the PNG is written and its path returned. -/
inductive ConvOutcome where
  | failBeforeSave
  | failDuringSave
  | ok
deriving DecidableEq

/-- The file effect of one download_tile call writing to path tif:
(result, filesystem after the call). -/
def download_tile_files (tif : String) (o : FetchOutcome) (fs : List String) :
    Except PipeErr String × List String :=
  match o with
  | FetchOutcome.failBeforeWrite => (Except.error PipeErr.downloadErr, fs)
  | FetchOutcome.failDuringWrite => (Except.error PipeErr.downloadErr, tif :: fs)
  | FetchOutcome.tooLarge => (Except.error PipeErr.downloadErr, (tif :: fs).erase tif)
  | FetchOutcome.ok => (Except.ok tif, tif :: fs)

/-- The file effect of one geotiff_to_png call writing to path png. -/
def geotiff_to_png_files (png : String) (o : ConvOutcome) (fs : List String) :
    Except PipeErr String × List String :=
  match o with
  | ConvOutcome.failBeforeSave => (Except.error PipeErr.conversionErr, fs)
  | ConvOutcome.failDuringSave => (Except.error PipeErr.conversionErr, png :: fs)
  | ConvOutcome.ok => (Except.ok png, png :: fs)

/-- The route handler's observable outcome. -/
inductive RouteResult where
  | streamed
  | httpError : PipeErr → RouteResult
deriving DecidableEq

/-- routes.py lines 139-249 for a PNG-format request with a connected
client: output_tif and output_png start as None and are set only when the
corresponding stage returns; every except branch (DownloadError,
ConversionError, bare Exception — all three have the same cleanup body)
runs cleanup_file on whichever of the two variables is set, then raises an
HTTPException.  On success the intermediate GeoTIFF is cleaned at line
189 and the PNG is streamed, file_iterator removing it after streaming
(lines 31-45).  The returned list is the filesystem once the response (or
the error) has left the handler. -/
def download_route (tif png : String) (fo : FetchOutcome) (co : ConvOutcome)
    (fs0 : List String) : RouteResult × List String :=
  match download_tile_files tif fo fs0 with
  | (Except.error e, fs1) =>
    (RouteResult.httpError e, fs1)
  | (Except.ok tifPath, fs1) =>
    match geotiff_to_png_files png co fs1 with
    | (Except.error e, fs2) =>
      (RouteResult.httpError e, cleanup_file tifPath fs2)
    | (Except.ok pngPath, fs2) =>
      (RouteResult.streamed, cleanup_file pngPath (cleanup_file tifPath fs2))

/-- Fragment of matplotlib's colormap registry restricted to the names a
counterexample needs: matplotlib registers the diverging map RdYlGn and
the default viridis, and its lookup is case sensitive, so the all-lower
spelling rdylgn is not a registered name.  (The registry itself lives in
matplotlib, outside this repository.) -/
def mplRegistryFragment : String → Option String := fun s =>
  if s = ("RdYlGn") then some ("RdYlGn")
  else if s = ("viridis") then some ("viridis")
  else none

/-! ## Theorems -/

/-- Pointwise extensionality for List.map, used to compare the embedded
array pipelines with their pointwise descriptions. -/
theorem map_ext_total {α β : Type} (f g : α → β) (l : List α)
    (h : ∀ a, f a = g a) : l.map f = l.map g := by
  induction l with
  | nil => rfl
  | cons x xs ih => simp [h, ih]

/-- Masking an array computed by map with a mask computed by map over the
same source array is a pointwise operation. -/
theorem zipWith_ite_map {α β : Type} (g : α → Bool) (f : α → β) (c : β)
    (l : List α) :
    List.zipWith (fun m v => if m then c else v) (l.map g) (l.map f) =
      l.map (fun v => if g v then c else f v) := by
  induction l with
  | nil => rfl
  | cons x xs ih => simp [ih]

/-- Both percentiles of an empty sample list are 0. -/
theorem percentile_nil (q : ℚ) : percentile [] q = 0 := by
  norm_num [percentile, sortRat]

/-- C6 (code_bug): the download-info fetch endpoint lets a disabled
collection through to the tile fetch pipeline.  At the concrete input
collection sentinel-1-grd, asset vv: the catalog marks the collection
disabled with its SAR-size reason, the download endpoint rejects with
exactly that reason, but the download-info endpoint performs no disabled
check and calls download_tile, whose own validation accepts the asset, so
the request proceeds into the pipeline — contradicting the claim that no
disabled-collection request ever reaches the pipeline on any fetch
endpoint. -/
theorem download_info_disabled_not_enforced :
    (is_collection_disabled ("sentinel-1-grd")).1 = true ∧
    (is_collection_disabled ("sentinel-1-grd")).2 =
      some ("SAR tiles are too large (1.2 GB per band)") ∧
    download_disabled_gate ("sentinel-1-grd") =
      EndpointAction.reject ("SAR tiles are too large (1.2 GB per band)") ∧
    download_info_disabled_gate ("sentinel-1-grd") = EndpointAction.callPipeline ∧
    is_valid_asset ("sentinel-1-grd") ("vv") = true := by
  decide

/-- C10: an explicit rescale range whose minimum equals its maximum makes
rescale_array return the all-zero array together with the nodata mask,
mirroring the degenerate-percentile rule. -/
theorem rescale_degenerate_explicit_range_zero
    (arr : List (Option ℚ)) (nodata_value m : ℚ) (s : String)
    (h : parseRange s = some (m, m)) :
    rescale_array arr (some s) nodata_value =
      (arr.map (fun _ => 0), arr.map (nodataPix nodata_value)) := by
  simp [rescale_array, h]

/-- Witness for C10 at the concrete range string of 3 comma 3 on a
one-cell array. -/
theorem rescale_degenerate_explicit_range_zero_witness :
    parseRange ("3,3") = some (3, 3) ∧
    rescale_array [some 1] (some ("3,3")) 0 =
      (([some (1 : ℚ)]).map (fun _ => 0), ([some (1 : ℚ)]).map (nodataPix 0)) := by
  have hp : parseRange ("3,3") = some (3, 3) := by decide
  exact ⟨hp, rescale_degenerate_explicit_range_zero [some 1] 0 3 ("3,3") hp⟩

/-- C8 counterexample: an unrecognised colormap name is not always
replaced by the fixed default.  Under the (externally true) registry facts
that RdYlGn is registered and rdylgn is not, the name rdylgn resolves to
RdYlGn via the case-correcting substitution, not to the default
viridis — so the claim that every unrecognised name is replaced by a fixed
default colormap is false at the concrete input rdylgn. -/
theorem unknown_colormap_not_always_default :
    mplRegistryFragment ("rdylgn") = none ∧
    resolveCmap mplRegistryFragment ("viridis") ("rdylgn") = ("RdYlGn") ∧
    ("RdYlGn" : String) ≠ ("viridis") := by
  decide

/-- C8 (amended): a rescale string that does not parse as two
comma-separated numbers makes rescale_array behave exactly as if no range
were given (percentile auto-scaling), and an unrecognised colormap name is
first retried after the fixed case-correcting substitutions; the
substituted name is used when the registry knows it, and only otherwise
does the lookup fall back to the fixed default viridis.  In neither case
does the operation fail. -/
theorem fallback_policy :
    (∀ (arr : List (Option ℚ)) (s : String) (nodata_value : ℚ),
        parseRange s = none →
        rescale_array arr (some s) nodata_value =
          rescale_array arr none nodata_value) ∧
    (∀ (α : Type) (get_cmap : String → Option α) (viridis : α) (name : String),
        get_cmap name = none →
        resolveCmap get_cmap viridis name =
          (get_cmap (fixupCmapName name)).getD viridis) := by
  constructor
  · intro arr s nodata_value h
    simp [rescale_array, h]
  · intro α get_cmap viridis name h
    cases hc : get_cmap (fixupCmapName name) <;>
      simp [resolveCmap, h, hc]

/-- Witness for the amended C8 at the unparsable string bogus and at a
registry that recognises nothing. -/
theorem fallback_policy_witness :
    parseRange ("bogus") = none ∧
    rescale_array [some 1] (some ("bogus")) 0 = rescale_array [some 1] none 0 ∧
    ((fun (_ : String) => (none : Option String)) ("zzz") = none) ∧
    resolveCmap (fun (_ : String) => (none : Option String)) ("v") ("zzz") =
      (((fun (_ : String) => (none : Option String)) (fixupCmapName ("zzz"))).getD ("v")) := by
  have hp : parseRange ("bogus") = none := by decide
  exact ⟨hp, fallback_policy.1 [some 1] ("bogus") 0 hp, rfl,
    fallback_policy.2 String (fun _ => none) ("v") ("zzz") rfl⟩

/-- C2 counterexample: on the raster with transform a=1, c=0, e=-1, f=5
and 5x5 pixels (extent x in [0,5], y in [0,5], CRS EPSG:4326 so the bbox
reprojection is the identity), the bbox (left 10, bottom 10, right 10,
top 20) lies entirely outside the extent, yet the pipeline performs no
rejection: the clipping step succeeds and src.read receives the window
(col 10, row -15, width 0, height 10) of zero width — contradicting the
claim that such a request is rejected with an empty-window error before
any windowed read and that a zero-or-negative-size window is never passed
to the read. -/
theorem outside_bbox_window_passed_to_read :
    bbox_outside (BBox.mk 10 10 10 20)
      (raster_bounds (AffineNorthUp.mk 1 0 (-1) 5) 5 5) ∧
    clip_window_step id (BBox.mk 10 10 10 20) (AffineNorthUp.mk 1 0 (-1) 5) =
      Except.ok (PixelWindow.mk 10 (-15) 0 10) ∧
    (PixelWindow.mk 10 (-15) 0 10).width ≤ 0 := by
  refine ⟨?_, ?_, ?_⟩ <;>
    norm_num [bbox_outside, raster_bounds, clip_window_step, from_bounds]

/-- C2 (amended): the bbox clipping step of download_tile performs no
empty-window check: whatever window from_bounds yields for the
reprojected bbox is handed to the windowed read unconditionally; in
particular whenever the reprojected bounds are degenerate in longitude
the read receives a zero-width window. -/
theorem clip_window_no_empty_check
    (transform_bounds : BBox → BBox) (bbox : BBox) (t : AffineNorthUp) :
    clip_window_step transform_bounds bbox t =
      Except.ok (from_bounds (transform_bounds bbox).left
        (transform_bounds bbox).bottom (transform_bounds bbox).right
        (transform_bounds bbox).top t) ∧
    ((transform_bounds bbox).right = (transform_bounds bbox).left →
      ∃ w, clip_window_step transform_bounds bbox t = Except.ok w ∧ w.width = 0) := by
  refine ⟨rfl, fun h => ⟨_, rfl, ?_⟩⟩
  simp [from_bounds, h]

/-- Witness for the amended C2 at the identity reprojection and a
degenerate bbox. -/
theorem clip_window_no_empty_check_witness :
    ((id (BBox.mk 10 10 10 20)).right = (id (BBox.mk 10 10 10 20)).left) ∧
    (∃ w, clip_window_step id (BBox.mk 10 10 10 20) (AffineNorthUp.mk 1 0 (-1) 5) =
        Except.ok w ∧ w.width = 0) := by
  exact ⟨rfl, (clip_window_no_empty_check id (BBox.mk 10 10 10 20)
    (AffineNorthUp.mk 1 0 (-1) 5)).2 rfl⟩

/-- C1 counterexample: when the write of the output GeoTIFF raises
mid-way (a pipeline failure that surfaces to the caller as a
DownloadError-backed HTTP error), the partially written raster file
remains on disk after the error has surfaced: the filesystem after the
request is the nonempty list holding that path — contradicting the claim
that on every pipeline failure every file created during the request is
deleted before the error surfaces. -/
theorem partial_file_survives_failure :
    download_route ("t.tif") ("p.png") FetchOutcome.failDuringWrite ConvOutcome.ok [] =
      (RouteResult.httpError PipeErr.downloadErr, [("t.tif")]) ∧
    ([("t.tif")] : List String) ≠ [] := by
  decide

/-- C1 (amended): on every failure path the route handler deletes exactly
the files whose paths the pipeline stages returned to it (and the
size-limit failure deletes its own file before raising), identically for
domain errors and unexpected exceptions; but a failure striking during
the raster write of download_tile, or during the image save of
geotiff_to_png, leaves that partially written file behind, because its
path never reached the handler's cleanup variables. -/
theorem download_route_cleanup (tif png : String) (fs0 : List String)
    (hne : tif ≠ png) :
    (∀ co, download_route tif png FetchOutcome.failBeforeWrite co fs0 =
        (RouteResult.httpError PipeErr.downloadErr, fs0)) ∧
    (∀ co, download_route tif png FetchOutcome.tooLarge co fs0 =
        (RouteResult.httpError PipeErr.downloadErr, fs0)) ∧
    (∀ co, download_route tif png FetchOutcome.failDuringWrite co fs0 =
        (RouteResult.httpError PipeErr.downloadErr, tif :: fs0)) ∧
    download_route tif png FetchOutcome.ok ConvOutcome.failBeforeSave fs0 =
      (RouteResult.httpError PipeErr.conversionErr, fs0) ∧
    download_route tif png FetchOutcome.ok ConvOutcome.failDuringSave fs0 =
      (RouteResult.httpError PipeErr.conversionErr, png :: fs0) ∧
    download_route tif png FetchOutcome.ok ConvOutcome.ok fs0 =
      (RouteResult.streamed, fs0) := by
  have hpt : ((png == tif) = false) := by
    simp [beq_eq_false_iff_ne]
    exact fun h => hne h.symm
  refine ⟨fun co => rfl, fun co => ?_, fun co => rfl, ?_, ?_, ?_⟩ <;>
    simp [download_route, download_tile_files, geotiff_to_png_files,
      cleanup_file, List.erase_cons_head, List.erase_cons_tail, hpt]

/-- Witness for the amended C1 on concrete distinct paths, at the
conversion-save failure point. -/
theorem download_route_cleanup_witness :
    (("a.tif" : String) ≠ ("a.png")) ∧
    download_route ("a.tif") ("a.png") FetchOutcome.ok ConvOutcome.failDuringSave [] =
      (RouteResult.httpError PipeErr.conversionErr, [("a.png")]) := by
  have h : ("a.tif" : String) ≠ ("a.png") := by decide
  exact ⟨h, (download_route_cleanup ("a.tif") ("a.png") [] h).2.2.2.2.1⟩

/-- C3: checkRequest first prunes timestamps older than one minute, then
allows and appends exactly when fewer than 10 remain and otherwise denies
without appending; consequently, starting from an empty log, ten requests
at seconds 0..9 are allowed, an 11th at second 59 (within 60 seconds of
the first) is denied and leaves no trace, and a request at second 120
(after the window has fully elapsed) is allowed again. -/
theorem check_rate_limit_contract :
    (∀ (log : List ℚ) (now : ℚ),
        check_rate_limit log now 10 1 =
          (decide ((log.filter (fun ts => decide (now - 60 < ts))).length < 10),
           (log.filter (fun ts => decide (now - 60 < ts))) ++
             (if (log.filter (fun ts => decide (now - 60 < ts))).length < 10
              then [now] else []))) ∧
    (run_requests [0, 1, 2, 3, 4, 5, 6, 7, 8, 9, 59, 120] []).1 =
      [true, true, true, true, true, true, true, true, true, true, false, true] := by
  constructor
  · intro log now
    simp only [check_rate_limit, mul_one]
    by_cases h : (log.filter (fun ts => decide (now - 60 < ts))).length < 10
    · simp [h, Nat.not_le.mpr h]
    · simp [h, Nat.not_lt.mp h]
  · norm_num [run_requests, check_rate_limit, List.filter_cons]

/-- C4: checkQuota prunes the download log to the past hour, sums the
recorded megabyte sizes, and allows exactly when the sum is strictly
below 5000 MB, recording nothing itself; consequently, after recording
three downloads of 2000 MB (2000 * 1024 * 1024 bytes) each within one
hour, the next check denies, although each individual download is under
the cap. -/
theorem check_download_quota_contract :
    (∀ (downloads : List (ℚ × ℚ)) (now : ℚ),
        check_download_quota downloads now 5000 =
          (decide ((((downloads.filter
              (fun p => decide (now - 3600 < p.1))).map Prod.snd).sum) < 5000),
           downloads.filter (fun p => decide (now - 3600 < p.1)))) ∧
    (check_download_quota
        (record_download
          (record_download
            (record_download [] 0 (2000 * 1024 * 1024))
            600 (2000 * 1024 * 1024))
          1200 (2000 * 1024 * 1024))
        1800 5000).1 = false ∧
    ((2000 * 1024 * 1024 : ℚ) / (1024 * 1024)) < 5000 := by
  refine ⟨fun downloads now => rfl, ?_, by norm_num⟩
  norm_num [check_download_quota, record_download, List.filter_cons]

/-- C9: getStats returns the tracker state unchanged (for every client
key, since the whole map is returned as-is), and its numbers agree with
the window-filtering the check operations perform: the download count and
megabyte sum are computed on exactly the list checkQuota prunes to, and
the request count is exactly the pruned-log length checkRequest compares
with the cap — a rate check whose cap equals that count denies, and one
whose cap exceeds it by one allows. -/
theorem get_stats_observability (t : RequestTracker) (ip : String) (now : ℚ) :
    (t.get_stats ip now).2 = t ∧
    (t.get_stats ip now).1.1 = (check_download_quota (t.downloads ip) now 5000).2.length ∧
    (t.get_stats ip now).1.2.1 =
      round2 (((check_download_quota (t.downloads ip) now 5000).2.map Prod.snd).sum) ∧
    (check_rate_limit (t.requests ip) now ((t.get_stats ip now).1.2.2) 1).1 = false ∧
    (check_rate_limit (t.requests ip) now ((t.get_stats ip now).1.2.2 + 1) 1).1 = true := by
  refine ⟨rfl, rfl, rfl, ?_, ?_⟩
  · simp [RequestTracker.get_stats, check_rate_limit, mul_one]
  · simp [RequestTracker.get_stats, check_rate_limit, mul_one]

/-- C5: normalize_array with the default (2, 98) percentile clip equals,
cell for cell, the claim's description: percentiles computed over exactly
the valid (finite, non-nodata) samples, values clipped to that range and
mapped linearly onto 0-255 integers, the all-zero array when the two
percentiles coincide, and 0 at every nodata cell; and the returned mask
marks exactly the nodata cells. -/
theorem normalize_array_matches_claim (arr : List (Option ℚ)) (nodata_value : ℚ) :
    (normalize_array arr 2 98 nodata_value).1 = claimPercentileScaling arr nodata_value ∧
    (normalize_array arr 2 98 nodata_value).2 = arr.map (nodataPix nodata_value) := by
  constructor
  · by_cases he : validValues nodata_value arr = []
    · simp only [normalize_array, claimPercentileScaling, he,
        List.isEmpty_nil, if_true]
      refine map_ext_total _ _ arr (fun p => ?_)
      cases p with
      | none => rfl
      | some x => by_cases hx : x = nodata_value <;> simp [hx, percentile_nil]
    · have hne : (validValues nodata_value arr).isEmpty = false := by
        cases hl : validValues nodata_value arr with
        | nil => exact absurd hl he
        | cons a as => rfl
      by_cases hd : percentile (validValues nodata_value arr) 98 =
          percentile (validValues nodata_value arr) 2
      · simp only [normalize_array, claimPercentileScaling, hne,
          Bool.false_eq_true, if_false, hd, if_true]
        refine map_ext_total _ _ arr (fun p => ?_)
        cases p with
        | none => rfl
        | some x => by_cases hx : x = nodata_value <;> simp [hx]
      · simp only [normalize_array, claimPercentileScaling, hne,
          Bool.false_eq_true, if_false, hd, maskZero]
        rw [zipWith_ite_map]
        refine map_ext_total _ _ arr (fun p => ?_)
        cases p with
        | none => simp [nodataPix]
        | some x =>
          by_cases hx : x = nodata_value <;> simp [nodataPix, hx, scaleU8]
  · simp only [normalize_array]
    split
    · rfl
    · split <;> rfl

/-- If every cell is nodata, the valid sample list is empty. -/
theorem validValues_nil_of_all_nodata (nodata_value : ℚ) (data : List (Option ℚ))
    (h : ∀ p ∈ data, nodataPix nodata_value p = true) :
    validValues nodata_value data = [] := by
  induction data with
  | nil => rfl
  | cons x xs ih =>
    have hx := h x (List.mem_cons_self x xs)
    have ih2 := ih (fun p hp => h p (List.mem_cons_of_mem x hp))
    cases x with
    | none => simpa [validValues, List.filterMap_cons] using ih2
    | some v =>
      have hv : v = nodata_value := by simpa [nodataPix] using hx
      simpa [validValues, List.filterMap_cons, hv] using ih2

/-- If every cell is nodata, the mask is all true. -/
theorem map_nodataPix_all_true (nodata_value : ℚ) (data : List (Option ℚ))
    (h : ∀ p ∈ data, nodataPix nodata_value p = true) :
    data.map (nodataPix nodata_value) = List.replicate data.length true := by
  induction data with
  | nil => rfl
  | cons x xs ih =>
    simp [h x (List.mem_cons_self x xs),
      ih (fun p hp => h p (List.mem_cons_of_mem x hp)), List.replicate_succ]

/-- Mapping a constant is replication. -/
theorem map_const_replicate {α β : Type} (c : β) (l : List α) :
    l.map (fun _ => c) = List.replicate l.length c := by
  induction l with
  | nil => rfl
  | cons x xs ih => simp [ih, List.replicate_succ]

/-- Masking with an all-true mask of matching length gives the constant
array. -/
theorem zipWith_true_const {β : Type} (c : β) :
    ∀ (n : ℕ) (l : List β), l.length = n →
      List.zipWith (fun m v => if m then c else v) (List.replicate n true) l =
        List.replicate n c := by
  intro n
  induction n with
  | zero =>
    intro l h
    simp
  | succ k ih =>
    intro l h
    cases l with
    | nil => simp at h
    | cons x xs =>
      simp only [List.replicate_succ, List.zipWith_cons_cons, if_true]
      rw [ih xs (by simpa using h)]

/-- On all-nodata data, both scaling modes return the all-zero array and
the all-true mask, for every rescale-range argument. -/
theorem rescale_all_nodata (data : List (Option ℚ)) (nodata_value : ℚ)
    (ro : Option String) (h : ∀ p ∈ data, nodataPix nodata_value p = true) :
    rescale_array data ro nodata_value =
      (List.replicate data.length 0, List.replicate data.length true) := by
  have hval := validValues_nil_of_all_nodata nodata_value data h
  have hmask := map_nodataPix_all_true nodata_value data h
  have hnorm : normalize_array data 2 98 nodata_value =
      (List.replicate data.length 0, List.replicate data.length true) := by
    simp only [normalize_array, hval, List.isEmpty_nil, if_true]
    rw [map_const_replicate, hmask]
  cases ro with
  | none => simpa [rescale_array] using hnorm
  | some s =>
    cases hp : parseRange s with
    | none => simpa [rescale_array, hp] using hnorm
    | some pr =>
      obtain ⟨lo, hi⟩ := pr
      by_cases hlh : hi = lo
      · simp only [rescale_array, hp, hlh, if_true]
        rw [map_const_replicate, hmask]
      · simp only [rescale_array, hp, hlh, if_false, maskZero]
        rw [hmask, zipWith_true_const 0 data.length _ (by simp)]

/-- C7: on a single-band source in which every cell is nodata (equal to
the declared nodata value, to 0 when none is declared, or NaN), the
visualization output is fully black for every colormap choice: the
all-true nodata mask forces every cell of the colormapped RGB output to
(0,0,0), and every cell of the grayscale output to 0 — for every rescale
argument, registry and transfer function. -/
theorem single_band_all_nodata_black
    (data : List (Option ℚ)) (src_nodata : Option ℚ)
    (rescale colormap : Option String)
    (get_cmap : String → Option (ℚ → ℚ × ℚ × ℚ)) (viridis : ℚ → ℚ × ℚ × ℚ)
    (h : ∀ p ∈ data, nodataPix (src_nodata.getD 0) p = true) :
    geotiff_to_png_single data src_nodata rescale colormap get_cmap viridis =
      (match colormap with
       | some _ => Sum.inl (List.replicate data.length (0, 0, 0))
       | none => Sum.inr (List.replicate data.length 0)) := by
  have hr : (match rescale with
      | some s => rescale_array data (some s) (src_nodata.getD 0)
      | none => normalize_array data 2 98 (src_nodata.getD 0)) =
      (List.replicate data.length 0, List.replicate data.length true) := by
    cases rescale with
    | some s => exact rescale_all_nodata data _ (some s) h
    | none =>
      have hx := rescale_all_nodata data (src_nodata.getD 0) none h
      simpa [rescale_array] using hx
  simp only [geotiff_to_png_single, hr]
  cases colormap with
  | none => rfl
  | some name =>
    simp only [apply_colormap, maskZeroRGB]
    rw [zipWith_true_const ((0 : ℕ), (0 : ℕ), (0 : ℕ)) data.length _ (by simp)]

/-- Witness for C7 on the concrete all-nodata band [NaN, 0] with no
declared nodata value (default 0), an arbitrary colormap name, an empty
registry and a transfer function that maps everything to white. -/
theorem single_band_all_nodata_black_witness :
    (∀ p ∈ ([none, some 0] : List (Option ℚ)),
        nodataPix ((none : Option ℚ).getD 0) p = true) ∧
    geotiff_to_png_single [none, some 0] none none (some ("jet"))
        (fun _ => none) (fun _ => (1, 1, 1)) =
      Sum.inl [((0 : ℕ), (0 : ℕ), (0 : ℕ)), (0, 0, 0)] := by
  have h : ∀ p ∈ ([none, some 0] : List (Option ℚ)),
      nodataPix ((none : Option ℚ).getD 0) p = true := by decide
  refine ⟨h, ?_⟩
  have := single_band_all_nodata_black [none, some 0] none none (some ("jet"))
    (fun _ => none) (fun _ => (1, 1, 1)) h
  simpa using this

end SatDataViewer
